import Mathlib

/-!
Verification development for the life-calendar repository.

Shallow embedding conventions:
* JavaScript `Date` values are modelled as integers: milliseconds since the
  epoch (`Date.getTime()`).  An invalid date (`NaN` time value) is modelled
  by `none` in an `Option Int` where the source checks `isNaN`.
* `Math.floor(a / b)` on integer millisecond quantities is `Int.fdiv`
  (floor division), which agrees with JavaScript for positive divisors.
* The viewport camera works on real-valued coordinates; we embed them as
  rationals (`ℚ`), where the zoom-to-cursor algebra is exact.
* Mutation of `this` is modelled by returning an updated record; reads of
  the wall clock (`new Date()` / `Date.now()`) become an explicit `now`
  argument.
-/

/-- One week in milliseconds, `1000 * 60 * 60 * 24 * 7` from
`LifeData.generateWeeks` in `src/data.ts`. -/
def oneWeekMs : Int := 1000 * 60 * 60 * 24 * 7

/-- `LifeEvent` from `src/data.ts`: a dated point event. -/
structure LifeEvent where
  date : Int
  title : String
  type : String
deriving DecidableEq, Repr

/-- `LifeSpan` from `src/data.ts`: a named time range; `endDate = none`
models the JavaScript `null` (open-ended span). -/
structure LifeSpan where
  id : String
  title : String
  startDate : Int
  endDate : Option Int
  color : Int
deriving DecidableEq, Repr

/-- `LifeSpanWithBounds` from `src/data.ts`: a span together with its
resolved week-index bounds. -/
structure LifeSpanWithBounds extends LifeSpan where
  startWeekIndex : Int
  endWeekIndex : Int
deriving DecidableEq, Repr

/-- `LifeWeek` from `src/data.ts`: one week cell of the calendar. -/
structure LifeWeek where
  index : Int
  yearIndex : Int
  weekIndex : Int
  startDate : Int
  endDate : Int
  isPast : Bool
  isCurrent : Bool
  events : List LifeEvent
  spans : List LifeSpanWithBounds
deriving DecidableEq, Repr

/-- The fields of the `LifeData` class from `src/data.ts`. -/
structure LifeData where
  birthDate : Int
  lifeExpectancyYears : Int
  events : List LifeEvent
  weeks : List LifeWeek
  spans : List LifeSpan
  spansWithBounds : List LifeSpanWithBounds
deriving DecidableEq, Repr

/-- The clamped current-week index computed at the top of
`LifeData.computeSpanBounds` (src/data.ts lines 108-111):
`Math.min(maxIndex, Math.max(0, Math.floor((Date.now() - birthMs) / oneWeekMs)))`. -/
def currentWeekIndexOf (birthMs totalWeeks oneWeek now : Int) : Int :=
  min (totalWeeks - 1) (max 0 ((now - birthMs).fdiv oneWeek))

/-- `LifeData.computeSpanBounds` from `src/data.ts` (lines 105-132), with the
call to `Date.now()` made an explicit `now` argument.  For each span:
`startIdx = max 0 (min maxIndex ⌊(start − birth)/oneWeek⌋)`;
`computedEndIdx = min maxIndex ⌊(end − birth)/oneWeek⌋` when `endDate` is
present, else the current-week index; the resolved end is
`max startIdx (min currentWeekIndex computedEndIdx)`. -/
def LifeData.computeSpanBounds (ld : LifeData) (totalWeeks oneWeek now : Int) :
    List LifeSpanWithBounds :=
  let birthMs := ld.birthDate
  let maxIndex := totalWeeks - 1
  let currentWeekIndex := currentWeekIndexOf birthMs totalWeeks oneWeek now
  ld.spans.map fun span =>
    let startIdx := max 0 (min maxIndex ((span.startDate - birthMs).fdiv oneWeek))
    let computedEndIdx :=
      match span.endDate with
      | some e => min maxIndex ((e - birthMs).fdiv oneWeek)
      | none => currentWeekIndex
    let endIdx := max startIdx (min currentWeekIndex computedEndIdx)
    { toLifeSpan := span, startWeekIndex := startIdx, endWeekIndex := endIdx }

/-- The body of the `for` loop of `LifeData.generateWeeks` (src/data.ts lines
76-98) for loop counter `i`: builds the `LifeWeek` record pushed onto the
result. -/
def LifeData.weekFor (ld : LifeData) (swb : List LifeSpanWithBounds) (now : Int)
    (i : Nat) : LifeWeek :=
  let weekStartDate := ld.birthDate + (i : Int) * oneWeekMs
  let weekEndDate := weekStartDate + oneWeekMs
  { index := (i : Int)
    yearIndex := ((i : Int)).fdiv 52
    weekIndex := (i : Int) % 52
    startDate := weekStartDate
    endDate := weekEndDate
    isPast := decide (weekEndDate < now)
    isCurrent := decide (weekStartDate ≤ now ∧ weekEndDate > now)
    events := ld.events.filter fun ev =>
      decide (ev.date ≥ weekStartDate ∧ ev.date < weekEndDate)
    spans := swb.filter fun sp =>
      decide ((i : Int) ≥ sp.startWeekIndex ∧ (i : Int) ≤ sp.endWeekIndex) }

/-- `LifeData.generateWeeks` from `src/data.ts` (lines 69-103), with
`new Date()` made an explicit `now` argument.  Returns the produced week list
together with the updated object (the source assigns `this.weeks` and
`this.spansWithBounds` before returning). -/
def LifeData.generateWeeks (ld : LifeData) (now : Int) : List LifeWeek × LifeData :=
  let totalWeeks := ld.lifeExpectancyYears * 52
  let swb := ld.computeSpanBounds totalWeeks oneWeekMs now
  let weeks := (List.range totalWeeks.toNat).map (ld.weekFor swb now)
  (weeks, { ld with weeks := weeks, spansWithBounds := swb })

/-- A 2-component vector of rationals, used for container position/scale and
screen points in the viewport embedding. -/
@[ext]
structure Vec2 where
  x : ℚ
  y : ℚ
deriving DecidableEq, Repr

/-- `ViewportConfig` from `src/config.ts`. -/
structure ViewportConfig where
  zoomFactor : ℚ
  maxScale : ℚ
  minScale : ℚ
  scaleLerp : ℚ
  positionLerp : ℚ
deriving DecidableEq, Repr

/-- `defaultViewportConfig` from `src/config.ts`:
`{ zoomFactor: 1.03, maxScale: 10, minScale: 0.1, scaleLerp: 0.18, positionLerp: 0.22 }`. -/
def defaultViewportConfig : ViewportConfig :=
  { zoomFactor := 103 / 100
    maxScale := 10
    minScale := 1 / 10
    scaleLerp := 18 / 100
    positionLerp := 22 / 100 }

/-- The mutable state of a `ViewportManager` from `src/viewport.ts`:
the pixi container transform it drives (`container.x/y`, `container.scale.x/y`),
the drag bookkeeping, the easing targets, and the config.  The canvas
dimensions are carried in the state because the manager holds the canvas;
none of the transform code in `src/viewport.ts` reads them. -/
structure ViewportState where
  containerPos : Vec2
  containerScale : Vec2
  isDragging : Bool
  lastPos : Option Vec2
  targetScale : ℚ
  targetPosition : Vec2
  config : ViewportConfig
  canvasWidth : ℚ
  canvasHeight : ℚ
deriving DecidableEq, Repr

/-- A wheel event as consumed by `ViewportManager.onWheel`: the vertical
scroll delta and the client-space cursor coordinates. -/
structure WheelEvent where
  deltaY : ℚ
  clientX : ℚ
  clientY : ℚ
deriving DecidableEq, Repr

/-- A pointer event as consumed by the pointer handlers: client-space
cursor coordinates. -/
structure PointerEvent where
  clientX : ℚ
  clientY : ℚ
deriving DecidableEq, Repr

namespace ViewportManager

/-- `ViewportManager.onWheel` from `src/viewport.ts` (lines 28-48).
`rectLeft`/`rectTop` are the canvas bounding-rect origin returned by
`getBoundingClientRect()`.  Computes the cursor's world position from the
current rendered container transform, the new clamped target scale
`min (max (targetScale * direction) minScale) maxScale`, and the new target
translation `(x − worldPos.x * newScale, y − worldPos.y * newScale)`. -/
def onWheel (s : ViewportState) (rectLeft rectTop : ℚ) (e : WheelEvent) :
    ViewportState :=
  let zoomFactor := s.config.zoomFactor
  let direction := if e.deltaY > 0 then 1 / zoomFactor else zoomFactor
  let x := e.clientX - rectLeft
  let y := e.clientY - rectTop
  let worldPos : Vec2 :=
    { x := (x - s.containerPos.x) / s.containerScale.x
      y := (y - s.containerPos.y) / s.containerScale.y }
  let newScale := min (max (s.targetScale * direction) s.config.minScale) s.config.maxScale
  { s with
    targetScale := newScale
    targetPosition := { x := x - worldPos.x * newScale, y := y - worldPos.y * newScale } }

/-- `ViewportManager.onPointerDown` from `src/viewport.ts` (lines 50-54). -/
def onPointerDown (s : ViewportState) (e : PointerEvent) : ViewportState :=
  { s with isDragging := true, lastPos := some { x := e.clientX, y := e.clientY } }

/-- `ViewportManager.onPointerMove` from `src/viewport.ts` (lines 56-67):
returns the state unchanged unless a drag is active with a recorded last
position; otherwise adds the pointer delta to the container position, snaps
the eased target to it, and records the new last position. -/
def onPointerMove (s : ViewportState) (e : PointerEvent) : ViewportState :=
  match s.isDragging, s.lastPos with
  | true, some lp =>
    let dx := e.clientX - lp.x
    let dy := e.clientY - lp.y
    let nx := s.containerPos.x + dx
    let ny := s.containerPos.y + dy
    { s with
      containerPos := { x := nx, y := ny }
      targetPosition := { x := nx, y := ny }
      lastPos := some { x := e.clientX, y := e.clientY } }
  | _, _ => s

/-- `ViewportManager.onPointerUp` from `src/viewport.ts` (lines 69-73). -/
def onPointerUp (s : ViewportState) : ViewportState :=
  { s with isDragging := false, lastPos := none }

/-- The `lerp` helper inside `ViewportManager.update`:
`start + (end − start) * amt`. -/
def lerp (start stop amt : ℚ) : ℚ := start + (stop - start) * amt

/-- `ViewportManager.update` from `src/viewport.ts` (lines 75-84): eases the
container scale toward `targetScale` by `scaleLerp` (`scale.set` applies the
eased value to both axes) and the container position toward `targetPosition`
by `positionLerp`.  The source applies this unconditionally on every ticker
frame. -/
def update (s : ViewportState) : ViewportState :=
  let nextScale := lerp s.containerScale.x s.targetScale s.config.scaleLerp
  let nextX := lerp s.containerPos.x s.targetPosition.x s.config.positionLerp
  let nextY := lerp s.containerPos.y s.targetPosition.y s.config.positionLerp
  { s with
    containerScale := { x := nextScale, y := nextScale }
    containerPos := { x := nextX, y := nextY } }

end ViewportManager

/-- The screen-to-world map of the camera, as in the spec's zoom-to-cursor
algebra and in `onWheel`'s `worldPos` computation:
`world = (screen − translation) / scale`, componentwise with a per-axis
scale. -/
def screenToWorld (translation scaleV : Vec2) (p : Vec2) : Vec2 :=
  { x := (p.x - translation.x) / scaleV.x, y := (p.y - translation.y) / scaleV.y }

/-- The world-to-screen map of the camera with a uniform scale, the inverse
of the spec's `world = (screen − translation)/scale`:
`screen = world * scale + translation`. -/
def worldToScreen (translation : Vec2) (scale : ℚ) (w : Vec2) : Vec2 :=
  { x := w.x * scale + translation.x, y := w.y * scale + translation.y }

/-- JavaScript runtime errors relevant here: referencing an identifier that
is not in scope raises a `ReferenceError` naming it. -/
inductive JsError where
  | referenceError (name : String)
deriving DecidableEq, Repr

/-- The identifiers in scope inside the body of `LifeData.addSpan`
(src/data.ts lines 51-58): the four parameters and the four locals bound
before the `this.spans.push(...)` statement.  `safeStart` is not among
them. -/
def addSpanLocalNames : List String :=
  ["startDate", "endDate", "title", "color", "start", "end", "normalizedStart", "safeEnd"]

/-- `LifeData.addSpan` from `src/data.ts` (lines 51-67).  Date arguments are
`Option Int` (`none` = invalid date, i.e. `NaN` time value); the `endDate`
parameter is additionally nullable.  `nowMs` stands for `new Date()` in the
`isNaN` fallback and `freshId` for the generated id.  The pushed record's
`startDate` property reads the identifier `safeStart`; that name is looked
up in `addSpanLocalNames`, the set of names the function actually binds, and
since it is absent the evaluation of the object literal raises
`ReferenceError` before `push` runs, leaving `spans` unchanged (modelled by
returning `Except.error` without a new state). -/
def LifeData.addSpan (ld : LifeData) (startDate : Option Int)
    (endDate : Option (Option Int)) (title : String) (color : Int)
    (nowMs : Int) (freshId : String) : Except JsError LifeData :=
  let start : Option Int := startDate
  let endD : Option Int :=
    match endDate with
    | some d => d
    | none => none
  let normalizedStart : Int :=
    match start with
    | some t => t
    | none => nowMs
  let safeEnd : Option Int :=
    match endD with
    | some e => if normalizedStart ≤ e then some e else some normalizedStart
    | none => none
  if "safeStart" ∈ addSpanLocalNames then
    Except.ok { ld with spans := ld.spans ++
      [{ id := freshId, title := title, startDate := normalizedStart,
         endDate := safeEnd, color := color }] }
  else
    Except.error (JsError.referenceError "safeStart")

/-- C1: for every birth date and positive `lifeExpectancyYears`,
`generateWeeks` returns exactly `lifeExpectancyYears * 52` weeks; week `i`
starts at `birthDate + i * oneWeekMs` and ends exactly where week `i + 1`
starts; week 0 starts at `birthDate`; and every week has
`yearIndex = ⌊index / 52⌋` and `weekIndex = index % 52`. -/
theorem C1_generateWeeks_structure (ld : LifeData) (now : Int)
    (hpos : 0 < ld.lifeExpectancyYears) :
    ((((ld.generateWeeks now).1).length : Int) = ld.lifeExpectancyYears * 52) ∧
    (∀ (i : Nat) (hi : i < ((ld.generateWeeks now).1).length),
      ((ld.generateWeeks now).1)[i].index = (i : Int) ∧
      ((ld.generateWeeks now).1)[i].startDate = ld.birthDate + (i : Int) * oneWeekMs ∧
      ((ld.generateWeeks now).1)[i].endDate =
        ((ld.generateWeeks now).1)[i].startDate + oneWeekMs ∧
      ((ld.generateWeeks now).1)[i].yearIndex = ((i : Int)).fdiv 52 ∧
      ((ld.generateWeeks now).1)[i].weekIndex = (i : Int) % 52) ∧
    (∀ (i : Nat) (hi : i + 1 < ((ld.generateWeeks now).1).length),
      ((ld.generateWeeks now).1)[i + 1].startDate =
        ((ld.generateWeeks now).1)[i].endDate) ∧
    (∀ (h0 : 0 < ((ld.generateWeeks now).1).length),
      ((ld.generateWeeks now).1)[0].startDate = ld.birthDate) := by
  refine ⟨?_, ?_, ?_, ?_⟩
  · simp only [LifeData.generateWeeks, List.length_map, List.length_range]
    omega
  · intro i hi
    simp [LifeData.generateWeeks, LifeData.weekFor]
  · intro i hi
    simp only [LifeData.generateWeeks, List.length_map, List.length_range] at hi
    simp [LifeData.generateWeeks, LifeData.weekFor, hi]
    ring
  · intro h0
    simp [LifeData.generateWeeks, LifeData.weekFor]

/-- Concrete instance for C1's witness: the spec scenario with birth date
2000-01-01 (946684800000 ms UTC) and a 1-year life expectancy. -/
def ldScenario : LifeData :=
  { birthDate := 946684800000
    lifeExpectancyYears := 1
    events := []
    weeks := []
    spans := []
    spansWithBounds := [] }

/-- Witness for C1 at the spec scenario: 52 weeks are produced and week 0
starts at the birth date. -/
theorem C1_generateWeeks_structure_witness :
    (0 < ldScenario.lifeExpectancyYears) ∧
    ((((ldScenario.generateWeeks 946684800000).1).length : Int) =
      ldScenario.lifeExpectancyYears * 52) ∧
    ((ldScenario.generateWeeks 946684800000).1)[0].startDate =
      ldScenario.birthDate := by
  refine ⟨by decide, (C1_generateWeeks_structure ldScenario 946684800000 (by decide)).1,
    (C1_generateWeeks_structure ldScenario 946684800000 (by decide)).2.2.2 ?_⟩
  decide

/-- Concrete instance refuting C2: an open-ended span that starts 10 weeks
after birth, evaluated at `now = birth` (current-week index 0). -/
def ldOpenFutureSpan : LifeData :=
  { birthDate := 0
    lifeExpectancyYears := 1
    events := []
    weeks := []
    spans := [{ id := "s", title := "t", startDate := 10 * oneWeekMs,
                endDate := none, color := 0 }]
    spansWithBounds := [] }

/-- C2 counterexample: the claim says an open-ended span's resolved
`endWeekIndex` equals the clamped current-week index.  For a span starting
10 weeks after birth with `now = birth`, the code resolves
`endWeekIndex = 10` while the clamped current-week index is 0. -/
theorem C2_counterexample :
    (ldOpenFutureSpan.spans.map (fun sp => sp.endDate) = [none]) ∧
    ((ldOpenFutureSpan.computeSpanBounds 52 oneWeekMs 0).map
      LifeSpanWithBounds.endWeekIndex = [10]) ∧
    currentWeekIndexOf ldOpenFutureSpan.birthDate 52 oneWeekMs 0 = 0 ∧
    ((10 : Int) ≠ 0) := by
  refine ⟨rfl, by decide, by decide, by decide⟩

/-- C2 amended: for every open-ended span (`endDate = none`), the resolved
`endWeekIndex` equals the LATER of its `startWeekIndex` and the clamped
current-week index (so it equals the clamped current-week index whenever the
span does not start in the future), and is never less than
`startWeekIndex`. -/
theorem C2_open_span_end (ld : LifeData) (totalWeeks ow now : Int)
    (b : LifeSpanWithBounds)
    (hb : b ∈ ld.computeSpanBounds totalWeeks ow now)
    (hopen : b.endDate = none) :
    b.endWeekIndex =
      max b.startWeekIndex (currentWeekIndexOf ld.birthDate totalWeeks ow now) ∧
    b.startWeekIndex ≤ b.endWeekIndex := by
  simp only [LifeData.computeSpanBounds, List.mem_map] at hb
  obtain ⟨span, hmem, rfl⟩ := hb
  have hopen2 : span.endDate = none := hopen
  refine ⟨?_, le_max_left _ _⟩
  simp [hopen2]

/-- Concrete instance for C2's witness: an open-ended span starting at
birth, evaluated 10 weeks after birth. -/
def ldOpenPastSpan : LifeData :=
  { birthDate := 0
    lifeExpectancyYears := 1
    events := []
    weeks := []
    spans := [{ id := "s", title := "t", startDate := 0,
                endDate := none, color := 0 }]
    spansWithBounds := [] }

/-- The resolved bounds of `ldOpenPastSpan`'s single span at
`now = 10 * oneWeekMs`. -/
def openPastSpanBounds : LifeSpanWithBounds :=
  { id := "s", title := "t", startDate := 0, endDate := none, color := 0
    startWeekIndex := 0, endWeekIndex := 10 }

/-- Witness for C2's amended theorem at a concrete open-ended span. -/
theorem C2_open_span_end_witness :
    (openPastSpanBounds ∈
      ldOpenPastSpan.computeSpanBounds 52 oneWeekMs (10 * oneWeekMs)) ∧
    openPastSpanBounds.endDate = none ∧
    (openPastSpanBounds.endWeekIndex =
      max openPastSpanBounds.startWeekIndex
        (currentWeekIndexOf ldOpenPastSpan.birthDate 52 oneWeekMs (10 * oneWeekMs)) ∧
    openPastSpanBounds.startWeekIndex ≤ openPastSpanBounds.endWeekIndex) :=
  ⟨by decide, rfl,
    C2_open_span_end ldOpenPastSpan 52 oneWeekMs (10 * oneWeekMs)
      openPastSpanBounds (by decide) rfl⟩

/-- Modelled from the spec: the resolved end-week index that claim C4
asserts for a span with a non-null `endDate` — the raw end week index
`⌊(endDate − birthDate)/oneWeekMs⌋` clamped into `[0, totalWeeks − 1]` and
forced to be no less than the start week index, with no other adjustment.
Kept separate from `LifeData.computeSpanBounds` for comparison. -/
def specClaimedEndWeekIndex (birthMs totalWeeks oneWeek startIdx endMs : Int) : Int :=
  max startIdx (max 0 (min (totalWeeks - 1) ((endMs - birthMs).fdiv oneWeek)))

/-- Concrete instance refuting C4: a span from birth to 10 weeks after
birth, evaluated at `now = birth`. -/
def ldClosedFutureSpan : LifeData :=
  { birthDate := 0
    lifeExpectancyYears := 1
    events := []
    weeks := []
    spans := [{ id := "s", title := "t", startDate := 0,
                endDate := some (10 * oneWeekMs), color := 0 }]
    spansWithBounds := [] }

/-- C4 counterexample: for a span with `endDate` 10 weeks after birth,
evaluated at `now = birth`, the claim's formula gives `endWeekIndex = 10`,
but the code additionally caps the end at the clamped current-week index
and resolves `endWeekIndex = 0`. -/
theorem C4_counterexample :
    ((ldClosedFutureSpan.computeSpanBounds 52 oneWeekMs 0).map
      LifeSpanWithBounds.endWeekIndex = [0]) ∧
    specClaimedEndWeekIndex ldClosedFutureSpan.birthDate 52 oneWeekMs 0
      (10 * oneWeekMs) = 10 ∧
    ((0 : Int) ≠ 10) := by
  refine ⟨by decide, by decide, by decide⟩

/-- C4 amended: for every span with `endDate = some e`, the resolved
`endWeekIndex` equals the raw end week index `⌊(e − birthDate)/oneWeekMs⌋`
min-clamped to `totalWeeks − 1`, ADDITIONALLY capped at the clamped
current-week index, and then forced to be no less than `startWeekIndex`
(there is no separate lower clamp of the end to 0; nonnegativity comes from
`startWeekIndex ≥ 0`). -/
theorem C4_closed_span_end (ld : LifeData) (totalWeeks ow now : Int)
    (b : LifeSpanWithBounds) (e : Int)
    (hb : b ∈ ld.computeSpanBounds totalWeeks ow now)
    (hend : b.endDate = some e) :
    b.endWeekIndex =
      max b.startWeekIndex
        (min (currentWeekIndexOf ld.birthDate totalWeeks ow now)
          (min (totalWeeks - 1) ((e - ld.birthDate).fdiv ow))) := by
  simp only [LifeData.computeSpanBounds, List.mem_map] at hb
  obtain ⟨span, hmem, rfl⟩ := hb
  have hend2 : span.endDate = some e := hend
  simp [hend2]

/-- The resolved bounds of `ldClosedFutureSpan`'s single span at
`now = 0`. -/
def closedFutureSpanBounds : LifeSpanWithBounds :=
  { id := "s", title := "t", startDate := 0, endDate := some (10 * oneWeekMs),
    color := 0, startWeekIndex := 0, endWeekIndex := 0 }

/-- Witness for C4's amended theorem at a concrete dated span. -/
theorem C4_closed_span_end_witness :
    (closedFutureSpanBounds ∈
      ldClosedFutureSpan.computeSpanBounds 52 oneWeekMs 0) ∧
    closedFutureSpanBounds.endDate = some (10 * oneWeekMs) ∧
    closedFutureSpanBounds.endWeekIndex =
      max closedFutureSpanBounds.startWeekIndex
        (min (currentWeekIndexOf ldClosedFutureSpan.birthDate 52 oneWeekMs 0)
          (min ((52 : Int) - 1) (((10 * oneWeekMs) - ldClosedFutureSpan.birthDate).fdiv oneWeekMs))) :=
  ⟨by decide, rfl,
    C4_closed_span_end ldClosedFutureSpan 52 oneWeekMs 0 closedFutureSpanBounds
      (10 * oneWeekMs) (by decide) rfl⟩

/-- C5: whatever a span's given start and end dates (including inverted
ones), as long as there is at least one week (`1 ≤ totalWeeks`), the
resolved bounds satisfy
`0 ≤ startWeekIndex ≤ endWeekIndex ≤ totalWeeks − 1`. -/
theorem C5_bounds_invariant (ld : LifeData) (totalWeeks ow now : Int)
    (h1 : 1 ≤ totalWeeks) (b : LifeSpanWithBounds)
    (hb : b ∈ ld.computeSpanBounds totalWeeks ow now) :
    0 ≤ b.startWeekIndex ∧ b.startWeekIndex ≤ b.endWeekIndex ∧
    b.endWeekIndex ≤ totalWeeks - 1 := by
  simp only [LifeData.computeSpanBounds, List.mem_map] at hb
  obtain ⟨span, hmem, rfl⟩ := hb
  simp only [currentWeekIndexOf]
  rcases span with ⟨id, title, sd, ed, color⟩
  rcases ed with _ | e
  · simp only []
    generalize (sd - ld.birthDate).fdiv ow = a
    generalize (now - ld.birthDate).fdiv ow = c
    refine ⟨le_max_left _ _, le_max_left _ _, ?_⟩
    omega
  · simp only []
    generalize (sd - ld.birthDate).fdiv ow = a
    generalize (now - ld.birthDate).fdiv ow = c
    generalize (e - ld.birthDate).fdiv ow = d
    refine ⟨le_max_left _ _, le_max_left _ _, ?_⟩
    omega

/-- Concrete instance for C5's witness: a span whose given `endDate` lies
strictly before its `startDate`. -/
def ldInvertedSpan : LifeData :=
  { birthDate := 0
    lifeExpectancyYears := 1
    events := []
    weeks := []
    spans := [{ id := "s", title := "t", startDate := 20 * oneWeekMs,
                endDate := some (5 * oneWeekMs), color := 0 }]
    spansWithBounds := [] }

/-- The resolved bounds of `ldInvertedSpan`'s single span at
`now = 30 * oneWeekMs`: the inversion is corrected to `start = end = 20`. -/
def invertedSpanBounds : LifeSpanWithBounds :=
  { id := "s", title := "t", startDate := 20 * oneWeekMs,
    endDate := some (5 * oneWeekMs), color := 0,
    startWeekIndex := 20, endWeekIndex := 20 }

/-- Witness for C5 at a concrete inverted span. -/
theorem C5_bounds_invariant_witness :
    ((1 : Int) ≤ 52) ∧
    (invertedSpanBounds ∈
      ldInvertedSpan.computeSpanBounds 52 oneWeekMs (30 * oneWeekMs)) ∧
    (0 ≤ invertedSpanBounds.startWeekIndex ∧
      invertedSpanBounds.startWeekIndex ≤ invertedSpanBounds.endWeekIndex ∧
      invertedSpanBounds.endWeekIndex ≤ (52 : Int) - 1) :=
  ⟨by decide, by decide,
    C5_bounds_invariant ldInvertedSpan 52 oneWeekMs (30 * oneWeekMs)
      (by decide) invertedSpanBounds (by decide)⟩

/-- C3: after a single wheel event at screen point
`P = (clientX − rectLeft, clientY − rectTop)`, the world point that was
under `P` under the current rendered container translation and scale maps
back to `P` under the new target scale and target translation (exactly, in
the rational embedding); the handler changes only the targets. -/
theorem C3_zoom_to_cursor (s : ViewportState) (rectLeft rectTop : ℚ)
    (e : WheelEvent) (hx : s.containerScale.x ≠ 0)
    (hy : s.containerScale.y ≠ 0) :
    worldToScreen (ViewportManager.onWheel s rectLeft rectTop e).targetPosition
        (ViewportManager.onWheel s rectLeft rectTop e).targetScale
        (screenToWorld s.containerPos s.containerScale
          { x := e.clientX - rectLeft, y := e.clientY - rectTop }) =
      { x := e.clientX - rectLeft, y := e.clientY - rectTop } ∧
    (ViewportManager.onWheel s rectLeft rectTop e).containerPos =
      s.containerPos ∧
    (ViewportManager.onWheel s rectLeft rectTop e).containerScale =
      s.containerScale := by
  refine ⟨?_, rfl, rfl⟩
  simp only [ViewportManager.onWheel, worldToScreen, screenToWorld]
  ext <;> ring

/-- Concrete viewport state for C3's witness: rendered transform
translation (3, 4), scale 2, target scale 1, default config. -/
def zoomStateW : ViewportState :=
  { containerPos := { x := 3, y := 4 }
    containerScale := { x := 2, y := 2 }
    isDragging := false
    lastPos := none
    targetScale := 1
    targetPosition := { x := 3, y := 4 }
    config := defaultViewportConfig
    canvasWidth := 800
    canvasHeight := 600 }

/-- Concrete wheel event for C3's witness: one notch toward the user at
client point (103, 54) over a canvas whose bounding rect starts at (3, 4). -/
def zoomEventW : WheelEvent := { deltaY := 1, clientX := 103, clientY := 54 }

/-- Witness for C3 at a concrete state and wheel event. -/
theorem C3_zoom_to_cursor_witness :
    (zoomStateW.containerScale.x ≠ 0) ∧ (zoomStateW.containerScale.y ≠ 0) ∧
    (worldToScreen (ViewportManager.onWheel zoomStateW 3 4 zoomEventW).targetPosition
        (ViewportManager.onWheel zoomStateW 3 4 zoomEventW).targetScale
        (screenToWorld zoomStateW.containerPos zoomStateW.containerScale
          { x := zoomEventW.clientX - 3, y := zoomEventW.clientY - 4 }) =
      { x := zoomEventW.clientX - 3, y := zoomEventW.clientY - 4 } ∧
    (ViewportManager.onWheel zoomStateW 3 4 zoomEventW).containerPos =
      zoomStateW.containerPos ∧
    (ViewportManager.onWheel zoomStateW 3 4 zoomEventW).containerScale =
      zoomStateW.containerScale) :=
  ⟨by decide, by decide,
    C3_zoom_to_cursor zoomStateW 3 4 zoomEventW (by decide) (by decide)⟩

/-- Concrete viewport state for C6: identity transform, target scale 1,
default config. -/
def wheelStateC6 : ViewportState :=
  { containerPos := { x := 0, y := 0 }
    containerScale := { x := 1, y := 1 }
    isDragging := false
    lastPos := none
    targetScale := 1
    targetPosition := { x := 0, y := 0 }
    config := defaultViewportConfig
    canvasWidth := 800
    canvasHeight := 600 }

/-- A wheel event with `deltaY = 0` (e.g. a purely horizontal scroll). -/
def wheelEventZeroDelta : WheelEvent := { deltaY := 0, clientX := 0, clientY := 0 }

/-- C6 counterexample: the claim says the direction is zoom-out whenever the
delta is not negative, so at `deltaY = 0` the new target scale would be
`clamp(1 × 1/1.03) = 100/103 < 1`; the code tests `deltaY > 0` and instead
zooms IN at `deltaY = 0`, producing target scale `1.03 > 1`. -/
theorem C6_counterexample :
    (ViewportManager.onWheel wheelStateC6 0 0 wheelEventZeroDelta).targetScale ≠
      min (max (wheelStateC6.targetScale *
          (if wheelEventZeroDelta.deltaY < 0 then wheelStateC6.config.zoomFactor
           else 1 / wheelStateC6.config.zoomFactor))
        wheelStateC6.config.minScale) wheelStateC6.config.maxScale := by
  simp only [ViewportManager.onWheel, wheelStateC6, wheelEventZeroDelta,
    defaultViewportConfig, gt_iff_lt, lt_self_iff_false, if_false, lt_irrefl,
    if_neg, ite_false]
  norm_num

/-- C6 amended: the per-notch factor is the fixed geometric `zoomFactor`,
applied multiplicatively, and the new target scale is
`clamp(currentTargetScale × factor, minScale, maxScale)`; but the direction
test is `deltaY > 0`: the handler zooms OUT exactly when the delta is
positive and zooms IN otherwise (a zero delta zooms in).  With
`zoomFactor > 1` and a positive current target scale, the unclamped product
moves strictly down when the delta is positive and strictly up otherwise. -/
theorem C6_wheel_scale (s : ViewportState) (rectLeft rectTop : ℚ)
    (e : WheelEvent) (hz : 1 < s.config.zoomFactor)
    (hts : 0 < s.targetScale) :
    ((ViewportManager.onWheel s rectLeft rectTop e).targetScale =
      min (max (s.targetScale *
          (if e.deltaY > 0 then 1 / s.config.zoomFactor else s.config.zoomFactor))
        s.config.minScale) s.config.maxScale) ∧
    (e.deltaY > 0 →
      s.targetScale * (1 / s.config.zoomFactor) < s.targetScale) ∧
    (¬ e.deltaY > 0 →
      s.targetScale < s.targetScale * s.config.zoomFactor) := by
  have hz0 : (0 : ℚ) < s.config.zoomFactor := lt_trans one_pos hz
  refine ⟨rfl, ?_, ?_⟩
  · intro _
    have hlt : 1 / s.config.zoomFactor < 1 := by
      rw [div_lt_one hz0]
      exact hz
    calc s.targetScale * (1 / s.config.zoomFactor)
        < s.targetScale * 1 := by
          exact mul_lt_mul_of_pos_left hlt hts
      _ = s.targetScale := mul_one _
  · intro _
    calc s.targetScale = s.targetScale * 1 := (mul_one _).symm
      _ < s.targetScale * s.config.zoomFactor := mul_lt_mul_of_pos_left hz hts

/-- Witness for C6's amended theorem at the concrete state and the
zero-delta event. -/
theorem C6_wheel_scale_witness :
    ((1 : ℚ) < wheelStateC6.config.zoomFactor) ∧
    ((0 : ℚ) < wheelStateC6.targetScale) ∧
    (((ViewportManager.onWheel wheelStateC6 0 0 wheelEventZeroDelta).targetScale =
      min (max (wheelStateC6.targetScale *
          (if wheelEventZeroDelta.deltaY > 0 then 1 / wheelStateC6.config.zoomFactor
           else wheelStateC6.config.zoomFactor))
        wheelStateC6.config.minScale) wheelStateC6.config.maxScale) ∧
    (wheelEventZeroDelta.deltaY > 0 →
      wheelStateC6.targetScale * (1 / wheelStateC6.config.zoomFactor) <
        wheelStateC6.targetScale) ∧
    (¬ wheelEventZeroDelta.deltaY > 0 →
      wheelStateC6.targetScale <
        wheelStateC6.targetScale * wheelStateC6.config.zoomFactor)) :=
  ⟨by norm_num [wheelStateC6, defaultViewportConfig],
    by norm_num [wheelStateC6],
    C6_wheel_scale wheelStateC6 0 0 wheelEventZeroDelta
      (by norm_num [wheelStateC6, defaultViewportConfig])
      (by norm_num [wheelStateC6])⟩

/-- Concrete viewport state with a zero-sized canvas whose container has not
yet reached its easing target. -/
def zeroCanvasState : ViewportState :=
  { containerPos := { x := 0, y := 0 }
    containerScale := { x := 1, y := 1 }
    isDragging := false
    lastPos := none
    targetScale := 1
    targetPosition := { x := 100, y := 100 }
    config := defaultViewportConfig
    canvasWidth := 0
    canvasHeight := 0 }

/-- C7 counterexample: the claim says the transform update is skipped when
the canvas has zero size.  `ViewportManager.update` has no such guard: on a
zero-sized canvas it still moves the container position toward the target
(here from 0 to 22). -/
theorem C7_counterexample :
    zeroCanvasState.canvasWidth = 0 ∧ zeroCanvasState.canvasHeight = 0 ∧
    (ViewportManager.update zeroCanvasState).containerPos ≠
      zeroCanvasState.containerPos := by
  refine ⟨rfl, rfl, ?_⟩
  simp only [ViewportManager.update, ViewportManager.lerp, zeroCanvasState,
    defaultViewportConfig, ne_eq, Vec2.mk.injEq]
  norm_num

/-- C7 amended: neither the per-frame transform update nor the wheel
handler is skipped on a zero-sized canvas — both run unconditionally and
neither reads the canvas dimensions, so their camera results are identical
for any canvas size, zero included; `update` performs only linear
interpolation (`lerp start stop amt = start + (stop − start) * amt`, no
division), and the only division in `onWheel` is by the container's
rendered scale, not by a canvas dimension.  That divisor cannot become zero
through the manager's own operations once it is nonzero: no input handler
changes the rendered scale, `onWheel` clamps the target scale to at least
`minScale` (positive in the shipped config, provided `minScale ≤ maxScale`),
and the per-frame blend keeps the rendered scale positive whenever the
current and target scales are positive and the blend fraction lies in
`[0, 1]`; a rendered scale externally initialized to exactly 0 remains the
one case in which `onWheel` would divide by zero. -/
theorem C7_no_canvas_size_dependence (s : ViewportState) (w1 h1 w2 h2 : ℚ)
    (rectLeft rectTop : ℚ) (e : WheelEvent) (p : PointerEvent)
    (hmin : 0 < s.config.minScale) (hmm : s.config.minScale ≤ s.config.maxScale)
    (hsx : 0 < s.containerScale.x) (hts : 0 < s.targetScale)
    (hl0 : 0 ≤ s.config.scaleLerp) (hl1 : s.config.scaleLerp ≤ 1) :
    ((ViewportManager.update { s with canvasWidth := w1, canvasHeight := h1 }).containerPos =
      (ViewportManager.update { s with canvasWidth := w2, canvasHeight := h2 }).containerPos) ∧
    ((ViewportManager.update { s with canvasWidth := w1, canvasHeight := h1 }).containerScale =
      (ViewportManager.update { s with canvasWidth := w2, canvasHeight := h2 }).containerScale) ∧
    ((ViewportManager.update s).containerPos =
      { x := ViewportManager.lerp s.containerPos.x s.targetPosition.x s.config.positionLerp
        y := ViewportManager.lerp s.containerPos.y s.targetPosition.y s.config.positionLerp }) ∧
    ((ViewportManager.update s).containerScale =
      { x := ViewportManager.lerp s.containerScale.x s.targetScale s.config.scaleLerp
        y := ViewportManager.lerp s.containerScale.x s.targetScale s.config.scaleLerp }) ∧
    ((ViewportManager.onWheel { s with canvasWidth := w1, canvasHeight := h1 }
        rectLeft rectTop e).targetScale =
      (ViewportManager.onWheel { s with canvasWidth := w2, canvasHeight := h2 }
        rectLeft rectTop e).targetScale) ∧
    ((ViewportManager.onWheel { s with canvasWidth := w1, canvasHeight := h1 }
        rectLeft rectTop e).targetPosition =
      (ViewportManager.onWheel { s with canvasWidth := w2, canvasHeight := h2 }
        rectLeft rectTop e).targetPosition) ∧
    ((ViewportManager.onWheel s rectLeft rectTop e).containerScale =
      s.containerScale) ∧
    ((ViewportManager.onPointerDown s p).containerScale = s.containerScale) ∧
    ((ViewportManager.onPointerMove s p).containerScale = s.containerScale) ∧
    ((ViewportManager.onPointerUp s).containerScale = s.containerScale) ∧
    (s.config.minScale ≤ (ViewportManager.onWheel s rectLeft rectTop e).targetScale ∧
      0 < (ViewportManager.onWheel s rectLeft rectTop e).targetScale) ∧
    (0 < (ViewportManager.update s).containerScale.x ∧
      0 < (ViewportManager.update s).containerScale.y) := by
  have hlerp : 0 < ViewportManager.lerp s.containerScale.x s.targetScale
      s.config.scaleLerp := by
    unfold ViewportManager.lerp
    rcases eq_or_lt_of_le hl0 with h0 | h0
    · rw [← h0]
      simpa using hsx
    · nlinarith [mul_pos h0 hts, mul_nonneg (sub_nonneg.2 hl1) hsx.le]
  have hclamp : s.config.minScale ≤
      (ViewportManager.onWheel s rectLeft rectTop e).targetScale :=
    le_min (le_max_right _ _) hmm
  refine ⟨rfl, rfl, rfl, rfl, rfl, rfl, rfl, rfl, ?_, rfl,
    ⟨hclamp, lt_of_lt_of_le hmin hclamp⟩, hlerp, hlerp⟩
  cases hb : s.isDragging <;> cases hl2 : s.lastPos <;>
    simp [ViewportManager.onPointerMove, hb, hl2]

/-- Concrete viewport state for C7's witness: identity rendered transform,
default config (`minScale = 0.1`, `maxScale = 10`, `scaleLerp = 0.18`). -/
def c7StateW : ViewportState :=
  { containerPos := { x := 0, y := 0 }
    containerScale := { x := 1, y := 1 }
    isDragging := false
    lastPos := none
    targetScale := 1
    targetPosition := { x := 0, y := 0 }
    config := defaultViewportConfig
    canvasWidth := 640
    canvasHeight := 480 }

/-- Concrete wheel event for C7's witness. -/
def c7WheelE : WheelEvent := { deltaY := 3, clientX := 10, clientY := 10 }

/-- Concrete pointer event for C7's witness. -/
def c7PointerE : PointerEvent := { clientX := 4, clientY := 5 }

/-- Witness for C7's amended theorem at a concrete state: the hypotheses
hold for the shipped config and an identity transform, the wheel handler's
new target scale stays at least `minScale`, and the rendered scale stays
positive across the per-frame update. -/
theorem C7_no_canvas_size_dependence_witness :
    ((0 : ℚ) < c7StateW.config.minScale) ∧
    (c7StateW.config.minScale ≤ c7StateW.config.maxScale) ∧
    ((0 : ℚ) < c7StateW.containerScale.x) ∧
    ((0 : ℚ) < c7StateW.targetScale) ∧
    ((0 : ℚ) ≤ c7StateW.config.scaleLerp) ∧
    (c7StateW.config.scaleLerp ≤ 1) ∧
    (c7StateW.config.minScale ≤
      (ViewportManager.onWheel c7StateW 0 0 c7WheelE).targetScale ∧
      0 < (ViewportManager.onWheel c7StateW 0 0 c7WheelE).targetScale) ∧
    (0 < (ViewportManager.update c7StateW).containerScale.x ∧
      0 < (ViewportManager.update c7StateW).containerScale.y) := by
  have h := C7_no_canvas_size_dependence c7StateW 640 480 640 480 0 0
    c7WheelE c7PointerE
    (by norm_num [c7StateW, defaultViewportConfig])
    (by norm_num [c7StateW, defaultViewportConfig])
    (by norm_num [c7StateW])
    (by norm_num [c7StateW])
    (by norm_num [c7StateW, defaultViewportConfig])
    (by norm_num [c7StateW, defaultViewportConfig])
  exact ⟨by norm_num [c7StateW, defaultViewportConfig],
    by norm_num [c7StateW, defaultViewportConfig],
    by norm_num [c7StateW],
    by norm_num [c7StateW],
    by norm_num [c7StateW, defaultViewportConfig],
    by norm_num [c7StateW, defaultViewportConfig],
    h.2.2.2.2.2.2.2.2.2.2.1,
    h.2.2.2.2.2.2.2.2.2.2.2⟩

/-- Concrete instance for C8: empty events and spans, 1-year expectancy. -/
def ldPure : LifeData :=
  { birthDate := 0
    lifeExpectancyYears := 1
    events := []
    weeks := []
    spans := []
    spansWithBounds := [] }

/-- C8 counterexample: `generateWeeks` reads the wall clock, so two calls
with identical `(birthDate, lifeExpectancyYears, events, spans)` made at
different times disagree (week 0's `isPast` flag flips), and a call changes
the object's `weeks` field — the claimed purity in those four inputs alone
fails. -/
theorem C8_counterexample :
    (((ldPure.generateWeeks 0).1.map LifeWeek.isPast).head? = some false) ∧
    (((ldPure.generateWeeks (200 * oneWeekMs)).1.map LifeWeek.isPast).head? =
      some true) ∧
    ((ldPure.generateWeeks 0).1 ≠ (ldPure.generateWeeks (200 * oneWeekMs)).1) ∧
    ((ldPure.generateWeeks 0).2.weeks ≠ ldPure.weeks) := by
  refine ⟨by decide, by decide, ?_, by decide⟩
  intro h
  have : ((ldPure.generateWeeks 0).1.map LifeWeek.isPast).head? =
      ((ldPure.generateWeeks (200 * oneWeekMs)).1.map LifeWeek.isPast).head? := by
    rw [h]
  rw [show ((ldPure.generateWeeks 0).1.map LifeWeek.isPast).head? = some false
      from by decide,
    show ((ldPure.generateWeeks (200 * oneWeekMs)).1.map LifeWeek.isPast).head? =
      some true from by decide] at this
  exact Option.noConfusion this (fun h2 => Bool.noConfusion h2)

/-- C8 amended: `generateWeeks` and `computeSpanBounds` are deterministic
functions of `(birthDate, lifeExpectancyYears, events, spans)` AND the
current time, and read nothing else of the object (in particular not the
cached `weeks`/`spansWithBounds` fields); `generateWeeks` additionally
overwrites those two cache fields as its only state change. -/
theorem C8_deterministic_given_now (a b : LifeData) (totalWeeks ow now : Int)
    (hb : a.birthDate = b.birthDate)
    (hy : a.lifeExpectancyYears = b.lifeExpectancyYears)
    (he : a.events = b.events) (hs : a.spans = b.spans) :
    ((a.generateWeeks now).1 = (b.generateWeeks now).1) ∧
    (a.computeSpanBounds totalWeeks ow now = b.computeSpanBounds totalWeeks ow now) ∧
    ((a.generateWeeks now).2 =
      { a with
        weeks := (a.generateWeeks now).1
        spansWithBounds :=
          a.computeSpanBounds (a.lifeExpectancyYears * 52) oneWeekMs now }) := by
  cases a
  cases b
  dsimp only at hb hy he hs
  subst hb hy he hs
  exact ⟨rfl, rfl, rfl⟩

/-- A throwaway week record used to make two `LifeData` values differ only
in their caches. -/
def dummyWeek : LifeWeek :=
  { index := 0, yearIndex := 0, weekIndex := 0, startDate := 0, endDate := 0
    isPast := false, isCurrent := false, events := [], spans := [] }

/-- Same data as `ldPure` but with a stale non-empty `weeks` cache. -/
def ldStaleCache : LifeData :=
  { birthDate := 0
    lifeExpectancyYears := 1
    events := []
    weeks := [dummyWeek]
    spans := []
    spansWithBounds := [] }

/-- Witness for C8's amended theorem: two objects equal in the four data
inputs but with different caches produce identical outputs. -/
theorem C8_deterministic_given_now_witness :
    (ldPure.birthDate = ldStaleCache.birthDate) ∧
    (ldPure.lifeExpectancyYears = ldStaleCache.lifeExpectancyYears) ∧
    (ldPure.events = ldStaleCache.events) ∧
    (ldPure.spans = ldStaleCache.spans) ∧
    (((ldPure.generateWeeks 0).1 = (ldStaleCache.generateWeeks 0).1) ∧
      (ldPure.computeSpanBounds 52 oneWeekMs 0 =
        ldStaleCache.computeSpanBounds 52 oneWeekMs 0) ∧
      ((ldPure.generateWeeks 0).2 =
        { ldPure with
          weeks := (ldPure.generateWeeks 0).1
          spansWithBounds :=
            ldPure.computeSpanBounds (ldPure.lifeExpectancyYears * 52) oneWeekMs 0 })) :=
  ⟨rfl, rfl, rfl, rfl,
    C8_deterministic_given_now ldPure ldStaleCache 52 oneWeekMs 0 rfl rfl rfl rfl⟩

/-- C9: while a drag is active (drag flag set and a last pointer position
recorded), a pointer-move event adds exactly the screen-space delta to the
container position, snaps the eased target position to that new position,
leaves both the rendered scale and the target scale unchanged, and records
the event position as the new last position. -/
theorem C9_drag_move (s : ViewportState) (e : PointerEvent) (lp : Vec2)
    (hd : s.isDragging = true) (hl : s.lastPos = some lp) :
    ((ViewportManager.onPointerMove s e).containerPos =
      { x := s.containerPos.x + (e.clientX - lp.x)
        y := s.containerPos.y + (e.clientY - lp.y) }) ∧
    ((ViewportManager.onPointerMove s e).targetPosition =
      (ViewportManager.onPointerMove s e).containerPos) ∧
    ((ViewportManager.onPointerMove s e).containerScale = s.containerScale) ∧
    ((ViewportManager.onPointerMove s e).targetScale = s.targetScale) ∧
    ((ViewportManager.onPointerMove s e).lastPos =
      some { x := e.clientX, y := e.clientY }) := by
  simp [ViewportManager.onPointerMove, hd, hl]

/-- Concrete dragging state for C9's witness. -/
def dragState : ViewportState :=
  { containerPos := { x := 10, y := 20 }
    containerScale := { x := 1, y := 1 }
    isDragging := true
    lastPos := some { x := 1, y := 2 }
    targetScale := 1
    targetPosition := { x := 0, y := 0 }
    config := defaultViewportConfig
    canvasWidth := 800
    canvasHeight := 600 }

/-- Concrete pointer-move event for C9's witness. -/
def dragMoveEvent : PointerEvent := { clientX := 5, clientY := 7 }

/-- Witness for C9 at a concrete dragging state and move event. -/
theorem C9_drag_move_witness :
    (dragState.isDragging = true) ∧
    (dragState.lastPos = some { x := 1, y := 2 }) ∧
    (((ViewportManager.onPointerMove dragState dragMoveEvent).containerPos =
      { x := dragState.containerPos.x + (dragMoveEvent.clientX - 1)
        y := dragState.containerPos.y + (dragMoveEvent.clientY - 2) }) ∧
    ((ViewportManager.onPointerMove dragState dragMoveEvent).targetPosition =
      (ViewportManager.onPointerMove dragState dragMoveEvent).containerPos) ∧
    ((ViewportManager.onPointerMove dragState dragMoveEvent).containerScale =
      dragState.containerScale) ∧
    ((ViewportManager.onPointerMove dragState dragMoveEvent).targetScale =
      dragState.targetScale) ∧
    ((ViewportManager.onPointerMove dragState dragMoveEvent).lastPos =
      some { x := dragMoveEvent.clientX, y := dragMoveEvent.clientY })) :=
  ⟨rfl, rfl, C9_drag_move dragState dragMoveEvent { x := 1, y := 2 } rfl rfl⟩

/-- C10: `addSpan` never succeeds: for every input the pushed record
references the identifier `safeStart`, which is not among the names the
function binds, so evaluating the object literal raises a `ReferenceError`
before the push and the spans list is left unchanged (no updated state is
produced). -/
theorem C10_addSpan_always_errors (ld : LifeData) (startDate : Option Int)
    (endDate : Option (Option Int)) (title : String) (color : Int)
    (nowMs : Int) (freshId : String) :
    ld.addSpan startDate endDate title color nowMs freshId =
      Except.error (JsError.referenceError "safeStart") := by
  simp [LifeData.addSpan, addSpanLocalNames]
